import Mathlib

/-!
Shallow embedding of the replay-session orchestrator of `rs-clips`
(`src/app/src/capture.rs`, `src/app/src/settings.rs`,
`src/app/src/failed_uploads.rs`, `src/app/src/main.rs`).

External effects (process spawning, signal delivery, the file system,
the JSON text layer of serde_json) are modelled by explicit environment
records and value-level state; every function below mirrors one Rust
function of the repository.
-/

namespace Clips

/-- The duration → raw-signal table inlined in `ReplayController::save_recent`
(capture.rs:232-245).  `base` stands for `libc::SIGRTMIN()` and `usr1` for
`libc::SIGUSR1`; the Rust `match` on integer literals is rendered as the
equivalent chain of equality tests. -/
def save_signal (base usr1 : Int) (duration_secs : Option Nat) : Int :=
  match duration_secs with
  | none => usr1
  | some n =>
    if n = 10 then base + 1
    else if n = 30 then base + 2
    else if n = 60 then base + 3
    else if n = 300 then base + 4
    else if n = 600 then base + 5
    else if n = 1800 then base + 6
    else usr1

/-- The six durations of the fixed table. -/
def save_table : List Nat := [10, 30, 60, 300, 600, 1800]

/-- Conversion of the wire field `duration_secs` performed by the `Save` arm
of `run_capture_loop` (main.rs:283-287): `0` becomes "no duration". -/
def duration_from_payload (duration_secs : Nat) : Option Nat :=
  if duration_secs = 0 then none else some duration_secs

/-- Model of `ReplayStorage` (capture.rs:13-17). -/
inductive ReplayStorage where
  | ram
  | disk
deriving DecidableEq

/-- Model of `ReplaySettings` (capture.rs:28-42); `PathBuf` fields are modelled as
path strings. -/
structure ReplaySettings where
  binary : String
  target : String
  buffer_seconds : Nat
  bitrate : Nat
  fps : Nat
  audio_tracks : List String
  restore_portal_session : Bool
  replay_storage : ReplayStorage
  output_dir : String
deriving DecidableEq

/-- Rust's `track.trim().is_empty()`: true exactly when every character of
the string is whitespace. -/
def isBlank (t : String) : Bool := t.toList.all Char.isWhitespace

/-- Model of `ReplaySettings::sanitize` (capture.rs:45-60): zero numeric fields fall
back to defaults, an empty audio-track list gains `default_input`, then
whitespace-only tracks are dropped. -/
def ReplaySettings.sanitize (s : ReplaySettings) : ReplaySettings :=
  { s with
    buffer_seconds := if s.buffer_seconds = 0 then 60 else s.buffer_seconds
    bitrate := if s.bitrate = 0 then 60000 else s.bitrate
    fps := if s.fps = 0 then 60 else s.fps
    audio_tracks :=
      (if s.audio_tracks.isEmpty then s.audio_tracks ++ ["default_input"]
       else s.audio_tracks).filter (fun t => !isBlank t) }

/-- A `ReplaySettings` value with every field defaulted, used to build
concrete test inputs. -/
def emptySettings : ReplaySettings :=
  { binary := "gpu-screen-recorder"
    target := "screen"
    buffer_seconds := 0
    bitrate := 0
    fps := 0
    audio_tracks := []
    restore_portal_session := false
    replay_storage := ReplayStorage.ram
    output_dir := "/tmp/out" }

/-- Outcome of `tokio::process::Command::spawn` for one `ensure_running`
attempt, supplied by the environment. -/
inductive SpawnOutcome where
  | ok (pid : Nat)
  | fail (msg : String)
deriving DecidableEq

/-- The OS-level facts one controller call depends on: whether `try_wait`
reports the current child as exited (and with which status rendering),
whether the output directory exists or can be created, the result of the
next spawn, whether raw signal delivery succeeds, and what
`find_latest_file` finds in the output directory. -/
structure Env where
  childExited : Bool
  exitStatus : String
  dirExists : Bool
  createDirOk : Bool
  spawn : SpawnOutcome
  killOk : Bool
  latestFile : Option String
deriving DecidableEq

/-- Model of `ReplayController` (capture.rs:75-80): the live child handle is its pid. -/
structure ReplayController where
  settings : ReplaySettings
  child : Option Nat
  last_saved : Option String
  last_message : Option String
deriving DecidableEq

/-- Model of `ReplayController::refresh_child` (capture.rs:160-168): reap an exited
child, clearing the handle and recording the exit message. -/
def refresh_child (env : Env) (c : ReplayController) : ReplayController :=
  match c.child with
  | some _ =>
    if env.childExited then
      { c with child := none
               last_message := some ("Replay recorder exited: " ++ env.exitStatus) }
    else c
  | none => c

/-- Model of `ReplayController::ensure_running` (capture.rs:170-195).  The result is
the controller after the call, `none` on success or the error message, and
the number of spawn attempts made. -/
def ensure_running (env : Env) (c : ReplayController) :
    ReplayController × Option String × Nat :=
  let c := refresh_child env c
  if c.child.isSome then (c, none, 0)
  else if env.dirExists = false ∧ env.createDirOk = false then
    (c, some ("creating replay output directory " ++ c.settings.output_dir), 0)
  else
    let c := { c with settings := c.settings.sanitize }
    match env.spawn with
    | SpawnOutcome.fail _ => (c, some "failed to spawn gpu-screen-recorder", 1)
    | SpawnOutcome.ok pid =>
      ({ c with child := some pid, last_message := some "Replay recorder started" },
       none, 1)

/-- Model of `ReplayController::stop` (capture.rs:197-213): no-op when nothing runs,
otherwise signal, wait, and always clear the handle; never fails. -/
def stop (c : ReplayController) : ReplayController :=
  match c.child with
  | none => c
  | some _ =>
    { c with child := none, last_message := some "Replay recorder stopped" }

/-- Model of `ReplayController::save_recent` (capture.rs:226-261).  `base`/`usr1` are
the platform's `SIGRTMIN`/`SIGUSR1`.  The result carries the returned path
(or the error message), the controller afterwards, and the list of raw
signals actually delivered to the child. -/
def save_recent (env : Env) (base usr1 : Int) (duration_secs : Option Nat)
    (c : ReplayController) :
    Except String (Option String) × ReplayController × List Int :=
  let c := refresh_child env c
  match c.child with
  | none => (Except.error "replay recorder is not running", c, [])
  | some _ =>
    let sig := save_signal base usr1 duration_secs
    if env.killOk = false then
      (Except.error "failed to signal gpu-screen-recorder", c, [sig])
    else
      let c := { c with last_saved := env.latestFile }
      let c := if env.latestFile.isSome
               then { c with last_message := some "Replay saved" } else c
      (Except.ok env.latestFile, c, [sig])

/-- Model of `ReplayMode` (settings.rs:10-13). -/
inductive ReplayMode where
  | Manual
  | AutoWithGame
deriving DecidableEq

/-- The mode-string decoding of the `UpdateMode` arm (main.rs:350-353). -/
def parse_mode (mode_str : String) : ReplayMode :=
  if mode_str = "auto" then ReplayMode.AutoWithGame else ReplayMode.Manual

/-- Model of `maybe_handle_game_detection` (main.rs:539-590).  `det` is the result of
`detect_steam_game()`.  Returns the controller, the updated remembered
presence flag, whether the helper reported a change, and the numbers of
`ensure_running` and `stop` calls it made. -/
def maybe_handle_game_detection (env : Env) (det : Except String String)
    (game_was_running : Bool) (c : ReplayController) :
    ReplayController × Bool × Bool × Nat × Nat :=
  match det with
  | Except.error _ => (c, game_was_running, false, 0, 0)
  | Except.ok game_name =>
    let game_running := !game_name.isEmpty
    if game_running && !game_was_running then
      match ensure_running env c with
      | (c1, none, _) =>
        let msg := if game_name.isEmpty then "Replay started (game detected)"
                   else "Replay started (" ++ game_name ++ ")"
        ({ c1 with last_message := some msg }, true, true, 1, 0)
      | (c1, some e, _) =>
        ({ c1 with last_message := some ("Failed to start replay: " ++ e) },
         game_was_running, true, 1, 0)
    else if !game_running && game_was_running then
      let c1 := stop c
      ({ c1 with last_message := some "Replay stopped (game exited)" },
       false, true, 0, 1)
    else (c, game_was_running, false, 0, 0)

/-- The mutable state of one `run_capture_loop` iteration that the mode and
detection logic touches: the shared mode, the remembered presence flag, and
the controller. -/
structure LoopState where
  mode : ReplayMode
  game_was_running : Bool
  ctrl : ReplayController
deriving DecidableEq

/-- The `UpdateMode` arm of `run_capture_loop` (main.rs:349-391): swap the
mode; only on an actual change stop the recorder (switch to Manual) or reset
the presence flag and re-run detection (switch to Auto), then persist.
Returns the new loop state, the numbers of `ensure_running` and `stop`
calls, and whether the persisted settings file was written. -/
def update_mode (env : Env) (det : Except String String) (mode_str : String)
    (ls : LoopState) : LoopState × Nat × Nat × Bool :=
  let new_mode := parse_mode mode_str
  let old_mode := ls.mode
  let ls := { ls with mode := new_mode }
  if new_mode ≠ old_mode then
    match new_mode with
    | ReplayMode.Manual =>
      let c := stop ls.ctrl
      let c := { c with last_message := some "Manual mode enabled" }
      ({ ls with ctrl := c, game_was_running := false }, 0, 1, true)
    | ReplayMode.AutoWithGame =>
      let c := { ls.ctrl with last_message := some "Auto mode enabled" }
      match maybe_handle_game_detection env det false c with
      | (c1, gw, _, starts, stops) =>
        ({ ls with ctrl := c1, game_was_running := gw }, starts, stops, true)
  else (ls, 0, 0, false)

/-- The periodic detection-tick arm of `run_capture_loop` (main.rs:511-527):
in Auto mode run the detection helper; in Manual mode only clear the
remembered presence flag. -/
def detection_tick (env : Env) (det : Except String String) (ls : LoopState) :
    LoopState × Nat × Nat :=
  if ls.mode = ReplayMode.AutoWithGame then
    match maybe_handle_game_detection env det ls.game_was_running ls.ctrl with
    | (c1, gw, _, starts, stops) =>
      ({ ls with ctrl := c1, game_was_running := gw }, starts, stops)
  else if ls.game_was_running then
    ({ ls with game_was_running := false }, 0, 0)
  else (ls, 0, 0)

/-- A concrete controller with no live child, for witnesses. -/
def idleController : ReplayController :=
  { settings := emptySettings
    child := none
    last_saved := none
    last_message := none }

/-- A concrete benign environment for witnesses: the child has not exited,
the output directory exists, spawning yields pid 42, signalling works and a
fresh file is found. -/
def okEnv : Env :=
  { childExited := false
    exitStatus := "ExitStatus(0)"
    dirExists := true
    createDirOk := true
    spawn := SpawnOutcome.ok 42
    killOk := true
    latestFile := some "/tmp/out/clip.mp4" }

/-- A JSON value tree.  serde_json's text layer (pretty-printing a tree and
reparsing it) is lossless, so persistence is modelled at tree level: a
settings file holds a `Json` value. -/
inductive Json where
  | null
  | bool (b : Bool)
  | num (n : Nat)
  | str (s : String)
  | arr (items : List Json)
  | obj (fields : List (String × Json))

/-- Model of `PersistedSettings` (settings.rs:16-24). -/
structure PersistedSettings where
  buffer_seconds : Nat
  bitrate : Nat
  fps : Nat
  target : String
  audio_tracks : List String
  replay_mode : ReplayMode
  replay_enabled : Bool
deriving DecidableEq

/-- serde serialization of the unit-variant enum `ReplayMode`. -/
def modeToJson : ReplayMode → Json
  | ReplayMode.Manual => Json.str "Manual"
  | ReplayMode.AutoWithGame => Json.str "AutoWithGame"

/-- serde deserialization of `ReplayMode`. -/
def modeFromJson : Json → Option ReplayMode
  | Json.str "Manual" => some ReplayMode.Manual
  | Json.str "AutoWithGame" => some ReplayMode.AutoWithGame
  | _ => none

/-- serde serialization of `PersistedSettings` (derive on settings.rs:15). -/
def persistedToJson (s : PersistedSettings) : Json :=
  Json.obj
    [("buffer_seconds", Json.num s.buffer_seconds),
     ("bitrate", Json.num s.bitrate),
     ("fps", Json.num s.fps),
     ("target", Json.str s.target),
     ("audio_tracks", Json.arr (s.audio_tracks.map Json.str)),
     ("replay_mode", modeToJson s.replay_mode),
     ("replay_enabled", Json.bool s.replay_enabled)]

/-- Field access in a JSON object. -/
def fieldsLookup : List (String × Json) → String → Option Json
  | [], _ => none
  | (k, v) :: rest, key => if k = key then some v else fieldsLookup rest key

/-- Typed field extraction used by deserialization. -/
def getField (j : Json) (key : String) : Option Json :=
  match j with
  | Json.obj fields => fieldsLookup fields key
  | _ => none

/-- JSON number as a u32 value. -/
def asNat : Json → Option Nat
  | Json.num n => some n
  | _ => none

/-- JSON string. -/
def asStr : Json → Option String
  | Json.str s => some s
  | _ => none

/-- JSON boolean. -/
def asBool : Json → Option Bool
  | Json.bool b => some b
  | _ => none

/-- Deserialize a `Vec<String>`. -/
def decodeStrings : List Json → Option (List String)
  | [] => some []
  | Json.str s :: rest => (decodeStrings rest).map (fun l => s :: l)
  | _ => none

/-- JSON array of strings. -/
def asStrList : Json → Option (List String)
  | Json.arr items => decodeStrings items
  | _ => none

/-- serde deserialization of `PersistedSettings`: every field must be
present and well-typed. -/
def persistedFromJson (j : Json) : Option PersistedSettings := do
  let bs ← (getField j "buffer_seconds").bind asNat
  let br ← (getField j "bitrate").bind asNat
  let f ← (getField j "fps").bind asNat
  let tg ← (getField j "target").bind asStr
  let tr ← (getField j "audio_tracks").bind asStrList
  let rm ← (getField j "replay_mode").bind modeFromJson
  let re ← (getField j "replay_enabled").bind asBool
  pure { buffer_seconds := bs, bitrate := br, fps := f, target := tg,
         audio_tracks := tr, replay_mode := rm, replay_enabled := re }

/-- Model of `PersistedSettings::save` (settings.rs:42-57): overwrite the settings
file with the serialized structure, whatever it held before. -/
def PersistedSettings.save (s : PersistedSettings) (_file : Option Json) :
    Option Json :=
  some (persistedToJson s)

/-- Model of `PersistedSettings::load` (settings.rs:27-40): a missing file yields
`none`, an unparsable file is an error. -/
def PersistedSettings.load (file : Option Json) :
    Except String (Option PersistedSettings) :=
  match file with
  | none => Except.ok none
  | some j =>
    match persistedFromJson j with
    | some s => Except.ok (some s)
    | none => Except.error "failed to parse settings file"

/-- Model of `FailedUpload` (failed_uploads.rs:8-15); paths are strings. -/
structure FailedUpload where
  id : String
  title : String
  game : String
  processed_path : String
  full_path : String
  timestamp : Nat
deriving DecidableEq

/-- Model of `FailedUpload::new` (failed_uploads.rs:18-33); `timestamp` is the Unix
second read from the system clock at creation; the id is that second and
the first 20 characters of the title. -/
def FailedUpload.new (timestamp : Nat) (title game : String)
    (processed_path full_path : String) : FailedUpload :=
  { id := toString timestamp ++ "-" ++ title.take 20
    title := title
    game := game
    processed_path := processed_path
    full_path := full_path
    timestamp := timestamp }

/-- Model of `FailedUploadsList` (failed_uploads.rs:44-47). -/
structure FailedUploadsList where
  uploads : List FailedUpload
deriving DecidableEq

/-- Model of `FailedUploadsList::add` (failed_uploads.rs:82-84): push at the end. -/
def FailedUploadsList.add (l : FailedUploadsList) (u : FailedUpload) :
    FailedUploadsList :=
  { uploads := l.uploads ++ [u] }

/-- Remove and return the first record whose id matches, keeping order. -/
def removeFirst : List FailedUpload → String → Option FailedUpload × List FailedUpload
  | [], _ => (none, [])
  | u :: rest, id =>
    if u.id == id then (some u, rest)
    else ((removeFirst rest id).1, u :: (removeFirst rest id).2)

/-- Model of `FailedUploadsList::remove` (failed_uploads.rs:86-92). -/
def FailedUploadsList.remove (l : FailedUploadsList) (id : String) :
    Option FailedUpload × FailedUploadsList :=
  ((removeFirst l.uploads id).1, { uploads := (removeFirst l.uploads id).2 })

/-- Model of `FailedUploadsList::get` (failed_uploads.rs:94-96). -/
def FailedUploadsList.get (l : FailedUploadsList) (id : String) :
    Option FailedUpload :=
  l.uploads.find? (fun u => u.id == id)

/-- The failed-uploads lists reachable by `add` and `remove` from the empty
list, where every added record carries an id not already in the list. -/
inductive ReachableFresh : FailedUploadsList → Prop
  | empty : ReachableFresh { uploads := [] }
  | add (l : FailedUploadsList) (u : FailedUpload) :
      ReachableFresh l → u.id ∉ l.uploads.map FailedUpload.id →
      ReachableFresh (l.add u)
  | remove (l : FailedUploadsList) (id : String) :
      ReachableFresh l → ReachableFresh (l.remove id).2

/-- File-system model: the list of existing regular-file paths.
`std::fs::remove_file`. -/
def removeFile (fs : List String) (p : String) : List String :=
  fs.filter (fun q => q != p)

/-- Model of `std::fs::rename`: the source stops existing, the target starts to. -/
def renameFile (fs : List String) (src dst : String) : List String :=
  fs.filter (fun q => q != src) ++ [dst]

/-- Model of `Path::join`. -/
def pathJoin (parent name : String) : String :=
  if parent = "" then name else parent ++ "/" ++ name

/-- Split a character list at the LAST occurrence of `sep`: the part before
(without the separator) and the part after; `none` when `sep` is absent. -/
def splitAtLastChar (sep : Char) : List Char → Option (List Char × List Char)
  | [] => none
  | c :: rest =>
    match splitAtLastChar sep rest with
    | some (before, after) => some (c :: before, after)
    | none => if c = sep then some ([], rest) else none

/-- Model of `Path::parent` rendered as a string; empty when there is none. -/
def pathParent (p : String) : String :=
  match splitAtLastChar (Char.ofNat 47) p.toList with
  | some (before, _) => before.asString
  | none => ""

/-- Model of `Path::file_name` rendered as a string. -/
def pathFileName (p : String) : String :=
  match splitAtLastChar (Char.ofNat 47) p.toList with
  | some (_, after) => after.asString
  | none => p

/-- Model of `Path::file_stem` and `Path::extension` of a file name: split at the
last dot; a leading-dot-only name keeps the dot and has no extension. -/
def splitStemExt (name : String) : String × Option String :=
  match splitAtLastChar (Char.ofNat 46) name.toList with
  | none => (name, none)
  | some (before, after) =>
    if before.isEmpty then (name, none)
    else (before.asString, some after.asString)

/-- The candidate name `stem-idx.ext` built by `unique_path`
(main.rs:979-988). -/
def uniqueCandidate (p : String) (idx : Nat) : String :=
  let parent := pathParent p
  let stemExt := splitStemExt (pathFileName p)
  let candidate_name :=
    match stemExt.2 with
    | some e => stemExt.1 ++ "-" ++ toString idx ++ "." ++ e
    | none => stemExt.1 ++ "-" ++ toString idx
  if parent = "" then candidate_name else parent ++ "/" ++ candidate_name

/-- Model of `unique_path` (main.rs:966-994): the path itself when free, else the
first of 9999 indexed candidates that does not exist, else failure. -/
def unique_path (fs : List String) (p : String) : Option String :=
  if fs.contains p = false then some p
  else
    (((List.range 9999).map (fun i => i + 1)).find?
        (fun i => !fs.contains (uniqueCandidate p i))).map (uniqueCandidate p)

/-- Model of `handle_upload_action` (main.rs:1143-1166): move the processed and raw
files (when they exist) into the per-upload destination directory under
fresh names.  Returns the file system after the attempted moves, the
destination directory on success, and the success flag. -/
def handle_upload_action (fs : List String)
    (processed_dir out_full out_processed title_with_game safe_title
     video_id : String) : List String × Option String × Bool :=
  let dest_dir := pathJoin processed_dir (title_with_game ++ " [" ++ video_id ++ "]")
  let step1 : Option (List String) :=
    if fs.contains out_processed then
      match unique_path fs
          (pathJoin dest_dir (title_with_game ++ " [" ++ video_id ++ "].mp4")) with
      | some target => some (renameFile fs out_processed target)
      | none => none
    else some fs
  match step1 with
  | none => (fs, none, false)
  | some fs1 =>
    if fs1.contains out_full then
      match unique_path fs1 (pathJoin dest_dir (safe_title ++ "_raw.mp4")) with
      | some target => (renameFile fs1 out_full target, some dest_dir, true)
      | none => (fs1, none, false)
    else (fs1, some dest_dir, true)

/-- The `FailedUpload` arm of `run_capture_loop` (main.rs:393-490).
`uploadRes` is the outcome of `upload::upload_to_youtube` for a retry.
Returns the file system, the list, and whether the list was persisted. -/
def failed_upload_action (fs : List String) (list : FailedUploadsList)
    (processed_dir : String) (upload_action id : String)
    (uploadRes : Except String (Option String)) :
    List String × FailedUploadsList × Bool :=
  match upload_action with
  | "retry" =>
    match list.get id with
    | none => (fs, list, false)
    | some fu =>
      match uploadRes with
      | Except.ok (some video_id) =>
        let title_with_game :=
          if fu.game.isEmpty then fu.title
          else fu.title ++ " [" ++ fu.game ++ "]"
        let fs1 := (handle_upload_action fs processed_dir fu.full_path
            fu.processed_path title_with_game fu.title video_id).1
        (fs1, (list.remove id).2, true)
      | Except.ok none => (fs, list, false)
      | Except.error _ => (fs, list, false)
  | "ignore" => (fs, (list.remove id).2, true)
  | "discard" =>
    match list.remove id with
    | (some fu, rest) =>
      let fs1 := if fs.contains fu.processed_path then
                   removeFile fs fu.processed_path else fs
      let fs2 := if fs1.contains fu.full_path then
                   removeFile fs1 fu.full_path else fs1
      (fs2, rest, true)
    | (none, _) => (fs, list, false)
  | _ => (fs, list, false)

end Clips

namespace Clips

/-- C1: the duration-to-signal mapping of `save_recent` implements exactly the
fixed table `{10 ↦ base+1, 30 ↦ base+2, 60 ↦ base+3, 300 ↦ base+4,
600 ↦ base+5, 1800 ↦ base+6}`; "no duration" maps to the user-defined
full-buffer signal; every other duration falls back to it; each table
duration yields a signal strictly above the real-time base; distinct table
durations yield distinct signals. -/
theorem save_signal_table_spec (base usr1 : Int) :
    save_signal base usr1 (some 10) = base + 1 ∧
    save_signal base usr1 (some 30) = base + 2 ∧
    save_signal base usr1 (some 60) = base + 3 ∧
    save_signal base usr1 (some 300) = base + 4 ∧
    save_signal base usr1 (some 600) = base + 5 ∧
    save_signal base usr1 (some 1800) = base + 6 ∧
    save_signal base usr1 none = usr1 ∧
    (∀ d : Nat, d ∉ save_table → save_signal base usr1 (some d) = usr1) ∧
    (∀ d ∈ save_table, base < save_signal base usr1 (some d)) ∧
    (∀ d₁ ∈ save_table, ∀ d₂ ∈ save_table, d₁ ≠ d₂ →
      save_signal base usr1 (some d₁) ≠ save_signal base usr1 (some d₂)) := by
  refine ⟨rfl, rfl, rfl, rfl, rfl, rfl, rfl, ?_, ?_, ?_⟩
  · intro d hd
    simp only [save_table, List.mem_cons, List.not_mem_nil, or_false] at hd
    push_neg at hd
    obtain ⟨h10, h30, h60, h300, h600, h1800⟩ := hd
    simp [save_signal, h10, h30, h60, h300, h600, h1800]
  · intro d hd
    fin_cases hd <;> simp [save_signal]
  · intro d₁ h₁ d₂ h₂ hne
    fin_cases h₁ <;> fin_cases h₂ <;> simp_all [save_signal]

/-- Witness for `save_signal_table_spec` at base 34, usr1 10: duration 42 is
not in the table and falls back to the full-buffer signal. -/
theorem save_signal_table_spec_witness :
    save_signal 34 10 (some 42) = 10 ∧ (34 : Int) < save_signal 34 10 (some 30) := by
  refine ⟨(save_signal_table_spec 34 10).2.2.2.2.2.2.2.1 42 (by decide), ?_⟩
  exact (save_signal_table_spec 34 10).2.2.2.2.2.2.2.2.1 30 (by decide)

/-- C10: the `Save` arm of the event loop converts wire duration 0 to "no
duration", so `save_recent` picks the full-buffer signal for it, and passes
every non-zero duration through unchanged. -/
theorem save_arm_zero_duration_spec (base usr1 : Int) :
    duration_from_payload 0 = none ∧
    save_signal base usr1 (duration_from_payload 0) = usr1 ∧
    (∀ d : Nat, d ≠ 0 → duration_from_payload d = some d) := by
  refine ⟨rfl, rfl, ?_⟩
  intro d hd
  simp [duration_from_payload, hd]

/-- Witness for `save_arm_zero_duration_spec`: duration 30 passes through. -/
theorem save_arm_zero_duration_spec_witness :
    duration_from_payload 30 = some 30 :=
  (save_arm_zero_duration_spec 34 10).2.2 30 (by decide)

/-- C2 counterexample: a settings value whose audio-track list holds one
whitespace-only track sanitizes to an empty audio-track list, refuting
"the audio-track list is never empty after normalization". -/
theorem sanitize_blank_track_counterexample :
    ({ emptySettings with audio_tracks := [" "] } : ReplaySettings).sanitize.audio_tracks
      = [] := by
  decide

/-- C2 (amended): after `sanitize` all numeric fields are strictly positive;
an empty audio-track list falls back to the single default track; the list is
non-empty whenever some input track is not whitespace-only (a list of only
whitespace-only tracks, however, sanitizes to the empty list); and
`{buffer_seconds := 0, bitrate := 0, fps := 0, audio_tracks := []}`
normalizes to `{60, 60000, 60, ["default_input"]}`. -/
theorem sanitize_spec (s : ReplaySettings) :
    0 < s.sanitize.buffer_seconds ∧
    0 < s.sanitize.bitrate ∧
    0 < s.sanitize.fps ∧
    (s.audio_tracks = [] → s.sanitize.audio_tracks = ["default_input"]) ∧
    ((∃ t ∈ s.audio_tracks, isBlank t = false) → s.sanitize.audio_tracks ≠ []) ∧
    emptySettings.sanitize =
      { emptySettings with
          buffer_seconds := 60, bitrate := 60000, fps := 60,
          audio_tracks := ["default_input"] } := by
  refine ⟨?_, ?_, ?_, ?_, ?_, by decide⟩
  · simp only [ReplaySettings.sanitize]
    split <;> omega
  · simp only [ReplaySettings.sanitize]
    split <;> omega
  · simp only [ReplaySettings.sanitize]
    split <;> omega
  · intro h
    simp only [ReplaySettings.sanitize, h]
    decide
  · rintro ⟨t, ht, htrim⟩
    have hne : s.audio_tracks.isEmpty = false := by
      cases hs : s.audio_tracks with
      | nil => exact absurd (hs ▸ ht) (List.not_mem_nil t)
      | cons a l => simp [hs]
    simp only [ReplaySettings.sanitize, hne, if_neg Bool.false_ne_true]
    apply List.ne_nil_of_mem (a := t)
    exact List.mem_filter.mpr ⟨ht, by simp [htrim]⟩

/-- Witness for `sanitize_spec`: instantiated at a settings value with one
real audio track. -/
theorem sanitize_spec_witness :
    ({ emptySettings with audio_tracks := ["mic"] } : ReplaySettings).sanitize.audio_tracks
      ≠ [] :=
  (sanitize_spec { emptySettings with audio_tracks := ["mic"] }).2.2.2.2.1
    ⟨"mic", by decide, by decide⟩

/-- The function `refresh_child` is the identity when the child has not exited. -/
theorem refresh_child_not_exited (env : Env) (c : ReplayController)
    (h : env.childExited = false) : refresh_child env c = c := by
  cases hc : c.child <;> simp [refresh_child, hc, h]

/-- C3: a successful `ensure_running` leaves exactly one live handle; it
spawns at most once, spawns exactly once when no child was live, and a
second call while the child still runs is a no-op that spawns nothing and
keeps the same handle. -/
theorem ensure_running_at_most_one_spec (e₁ e₂ : Env) (c c₁ : ReplayController)
    (n : Nat) (h : ensure_running e₁ c = (c₁, none, n))
    (h₂ : e₂.childExited = false) :
    c₁.child.isSome = true ∧ n ≤ 1 ∧ (c.child = none → n = 1) ∧
    ensure_running e₂ c₁ = (c₁, none, 0) := by
  simp only [ensure_running] at h
  by_cases hs : (refresh_child e₁ c).child.isSome
  · rw [if_pos hs] at h
    injection h with hC hRest
    injection hRest with hNone hN
    subst hC
    refine ⟨hs, by omega, ?_, ?_⟩
    · intro hcn
      exfalso
      rw [show refresh_child e₁ c = c from by simp [refresh_child, hcn]] at hs
      rw [hcn] at hs
      simp at hs
    · simp [ensure_running, refresh_child_not_exited e₂ _ h₂, hs]
  · rw [if_neg hs] at h
    by_cases hdir : e₁.dirExists = false ∧ e₁.createDirOk = false
    · rw [if_pos hdir] at h
      injection h with hC hRest
      injection hRest with hNone hN
      exact absurd hNone (by simp)
    · rw [if_neg hdir] at h
      cases hsp : e₁.spawn with
      | fail msg =>
        rw [hsp] at h
        injection h with hC hRest
        injection hRest with hNone hN
        exact absurd hNone (by simp)
      | ok pid =>
        rw [hsp] at h
        injection h with hC hRest
        injection hRest with hNone hN
        subst hC
        refine ⟨rfl, by omega, fun _ => hN.symm, ?_⟩
        simp [ensure_running, refresh_child_not_exited e₂ _ h₂]

/-- Witness for `ensure_running_at_most_one_spec`: from the idle controller,
the first call spawns pid 42 and the second call is a no-op. -/
theorem ensure_running_at_most_one_spec_witness :
    ensure_running okEnv
        { settings := emptySettings.sanitize, child := some 42,
          last_saved := none, last_message := some "Replay recorder started" } =
      ({ settings := emptySettings.sanitize, child := some 42,
         last_saved := none, last_message := some "Replay recorder started" },
       none, 0) :=
  (ensure_running_at_most_one_spec okEnv okEnv idleController _ 1 (by decide) rfl).2.2.2

/-- C5: `save_recent` with any duration while no recorder child is live
fails with the "replay recorder is not running" message, delivers no signal,
and that message is not the signal-delivery error. -/
theorem save_recent_not_running_spec (env : Env) (base usr1 : Int)
    (d : Option Nat) (c : ReplayController) (h : c.child = none) :
    save_recent env base usr1 d c =
      (Except.error "replay recorder is not running", c, ([] : List Int)) ∧
    ("replay recorder is not running" : String) ≠
      "failed to signal gpu-screen-recorder" := by
  constructor
  · simp [save_recent, refresh_child, h]
  · decide

/-- Witness for `save_recent_not_running_spec` at duration 30 on the idle
controller. -/
theorem save_recent_not_running_spec_witness :
    save_recent okEnv 34 10 (some 30) idleController =
      (Except.error "replay recorder is not running", idleController,
       ([] : List Int)) :=
  (save_recent_not_running_spec okEnv 34 10 (some 30) idleController rfl).1

/-- C4: in AutoWithGame mode the detection tick edge-triggers the recorder:
a presence flip false→true makes exactly one `ensure_running` call and no
stop (and remembers presence on success), a flip true→false makes exactly
one `stop` call and clears the flag, an unchanged presence makes no call and
changes nothing, and switching the mode to Manual always performs a stop
regardless of presence. -/
theorem auto_detection_edge_spec (env : Env) (name : String) (ls : LoopState)
    (hauto : ls.mode = ReplayMode.AutoWithGame) :
    (ls.game_was_running = false → name.isEmpty = false →
      (detection_tick env (Except.ok name) ls).2 = (1, 0)) ∧
    (ls.game_was_running = false → name.isEmpty = false →
      (∀ c1 k, ensure_running env ls.ctrl = (c1, none, k) →
        (detection_tick env (Except.ok name) ls).1.game_was_running = true)) ∧
    (ls.game_was_running = true →
      (detection_tick env (Except.ok "") ls).2 = (0, 1) ∧
      (detection_tick env (Except.ok "") ls).1.game_was_running = false) ∧
    (ls.game_was_running = true → name.isEmpty = false →
      detection_tick env (Except.ok name) ls = (ls, 0, 0)) ∧
    (ls.game_was_running = false →
      detection_tick env (Except.ok "") ls = (ls, 0, 0)) ∧
    (∀ det : Except String String,
      (update_mode env det "manual" ls).2.2.1 = 1) := by
  refine ⟨?_, ?_, ?_, ?_, ?_, ?_⟩
  · intro hgw hname
    rcases he : ensure_running env ls.ctrl with ⟨c1, err, k⟩
    cases err <;>
      simp [detection_tick, hauto, maybe_handle_game_detection, hgw, hname, he]
  · intro hgw hname c1 k he
    simp [detection_tick, hauto, maybe_handle_game_detection, hgw, hname, he]
  · intro hgw
    simp [detection_tick, hauto, maybe_handle_game_detection, hgw, String.isEmpty]
  · intro hgw hname
    obtain ⟨m, g, c⟩ := ls
    simp only at hauto hgw
    subst hauto
    subst hgw
    simp [detection_tick, maybe_handle_game_detection, hname]
  · intro hgw
    obtain ⟨m, g, c⟩ := ls
    simp only at hauto hgw
    subst hauto
    subst hgw
    simp [detection_tick, maybe_handle_game_detection, String.isEmpty]
  · intro det
    have hp : parse_mode "manual" = ReplayMode.Manual := by decide
    simp [update_mode, hp, hauto]

/-- Witness for `auto_detection_edge_spec`: a rising edge on the idle
controller makes exactly one start and no stop. -/
theorem auto_detection_edge_spec_witness :
    (detection_tick okEnv (Except.ok "Celeste")
        { mode := ReplayMode.AutoWithGame, game_was_running := false,
          ctrl := idleController }).2 = (1, 0) :=
  (auto_detection_edge_spec okEnv "Celeste"
      { mode := ReplayMode.AutoWithGame, game_was_running := false,
        ctrl := idleController } rfl).1 rfl (by decide)

/-- The function `update_mode` leaves the stored mode equal to the decoded mode string. -/
theorem update_mode_mode (e : Env) (d : Except String String) (ms : String)
    (ls : LoopState) : ((update_mode e d ms ls).1).mode = parse_mode ms := by
  simp only [update_mode]
  split
  · cases hpm : parse_mode ms with
    | Manual => simp [hpm]
    | AutoWithGame =>
      rcases h2 : maybe_handle_game_detection e d false
          { ls.ctrl with last_message := some "Auto mode enabled" } with
        ⟨c1, gw, ch, st, sp⟩
      simp [hpm, h2]
  · rfl

/-- The function `update_mode` is a no-op (no start, no stop, no persist) when the
requested mode equals the stored one. -/
theorem update_mode_same (e : Env) (d : Except String String) (ms : String)
    (ls : LoopState) (h : ls.mode = parse_mode ms) :
    update_mode e d ms ls = (ls, 0, 0, false) := by
  simp only [update_mode, ne_eq, ← h]
  rw [if_neg (by simp)]

/-- C8: two sequential `UpdateMode` actions with the same mode string leave
the second one a complete no-op: no `ensure_running`, no `stop`, no persist,
and the loop state (mode, presence flag, controller) unchanged; in general
an `UpdateMode` whose decoded mode equals the stored mode has no effect. -/
theorem update_mode_same_mode_spec (e₁ e₂ : Env)
    (d₁ d₂ : Except String String) (ms : String) (ls : LoopState) :
    update_mode e₂ d₂ ms (update_mode e₁ d₁ ms ls).1 =
      ((update_mode e₁ d₁ ms ls).1, 0, 0, false) ∧
    (ls.mode = parse_mode ms → update_mode e₁ d₁ ms ls = (ls, 0, 0, false)) := by
  constructor
  · exact update_mode_same e₂ d₂ ms _ (update_mode_mode e₁ d₁ ms ls)
  · exact update_mode_same e₁ d₁ ms ls

/-- Witness for `update_mode_same_mode_spec`: requesting "auto" while the
mode already is AutoWithGame does nothing. -/
theorem update_mode_same_mode_spec_witness :
    update_mode okEnv (Except.ok "") "auto"
        { mode := ReplayMode.AutoWithGame, game_was_running := false,
          ctrl := idleController } =
      ({ mode := ReplayMode.AutoWithGame, game_was_running := false,
         ctrl := idleController }, 0, 0, false) :=
  (update_mode_same_mode_spec okEnv okEnv (Except.ok "") (Except.ok "") "auto"
      { mode := ReplayMode.AutoWithGame, game_was_running := false,
        ctrl := idleController }).2 (by decide)

/-- Decoding an all-strings JSON array recovers the original list. -/
theorem decodeStrings_map_str (l : List String) :
    decodeStrings (l.map Json.str) = some l := by
  induction l with
  | nil => rfl
  | cons a t ih => simp [decodeStrings, ih]

/-- C7: `PersistedSettings::save` followed by `load` reproduces every field
of every settings value exactly, whatever the file held before. -/
theorem persisted_settings_round_trip (s : PersistedSettings)
    (file : Option Json) :
    PersistedSettings.load (PersistedSettings.save s file) =
      Except.ok (some s) := by
  obtain ⟨bs, br, f, tg, tr, rm, re⟩ := s
  cases rm <;>
    simp [PersistedSettings.load, PersistedSettings.save, persistedToJson,
          persistedFromJson, getField, fieldsLookup, asNat, asStr, asBool,
          asStrList, modeToJson, modeFromJson, decodeStrings_map_str]

/-- What `removeFirst` leaves is a sublist of the input. -/
theorem removeFirst_sublist (l : List FailedUpload) (id : String) :
    (removeFirst l id).2.Sublist l := by
  induction l with
  | nil => simp [removeFirst]
  | cons u t ih =>
    cases hc : u.id == id with
    | true =>
      simp only [removeFirst, hc, if_pos]
      exact List.sublist_cons_self u t
    | false =>
      simp only [removeFirst, hc, Bool.false_eq_true, if_neg, not_false_iff]
      exact List.Sublist.cons₂ u ih

/-- C9 counterexample: two records created by `FailedUpload::new` in the
same second with the same title share an id, and adding both yields a
reachable list with a duplicate identifier, refuting unconditional
uniqueness. -/
theorem failed_upload_duplicate_id_counterexample :
    ¬ ((((FailedUploadsList.mk []).add
          (FailedUpload.new 100 "clip" "game" "p1" "f1")).add
          (FailedUpload.new 100 "clip" "game" "p2" "f2")).uploads.map
            FailedUpload.id).Nodup := by
  decide

/-- C9 (amended): identifiers are unique in every list built by `add` and
`remove` from the empty list, provided each added record's id is not
already present (`FailedUpload::new` alone does not guarantee this: records
made in the same second with the same 20-character title prefix collide). -/
theorem failed_uploads_unique_ids (l : FailedUploadsList)
    (h : ReachableFresh l) : (l.uploads.map FailedUpload.id).Nodup := by
  induction h with
  | empty => simp
  | add l u _ hfresh ih =>
    simp only [FailedUploadsList.add, List.map_append, List.map_cons,
      List.map_nil]
    rw [List.nodup_append]
    refine ⟨ih, List.nodup_singleton _, ?_⟩
    intro a ha hb
    simp only [List.mem_singleton] at hb
    subst hb
    exact hfresh ha
  | remove l id _ ih =>
    simp only [FailedUploadsList.remove]
    exact List.Nodup.sublist
      (List.Sublist.map FailedUpload.id (removeFirst_sublist l.uploads id)) ih

/-- Witness for `failed_uploads_unique_ids`: one fresh add from empty. -/
theorem failed_uploads_unique_ids_witness :
    ((((FailedUploadsList.mk []).add
        (FailedUpload.new 100 "clip" "game" "p1" "f1")).uploads.map
          FailedUpload.id).Nodup) :=
  failed_uploads_unique_ids _
    (ReachableFresh.add _ _ ReachableFresh.empty (by decide))

/-- Removing a path that does not exist leaves the file system unchanged. -/
theorem removeFile_absent (fs : List String) (p : String)
    (h : fs.contains p = false) : removeFile fs p = fs := by
  have hp : p ∉ fs := by
    intro hmem
    have : fs.contains p = true := List.elem_iff.mpr hmem
    rw [this] at h
    cases h
  apply List.filter_eq_self.mpr
  intro a ha
  exact bne_iff_ne.mpr (fun he => hp (he ▸ ha))

/-- The guarded deletion `if path.exists() { remove_file(path) }` always
equals the unconditional model deletion. -/
theorem guarded_removeFile (fs : List String) (p : String) :
    (if fs.contains p then removeFile fs p else fs) = removeFile fs p := by
  cases hc : fs.contains p with
  | true => simp
  | false => simp [removeFile_absent fs p hc]

/-- If `removeFirst` finds a record, then `find?` with the same predicate
returns that record. -/
theorem removeFirst_find (l : List FailedUpload) (id : String)
    (r : FailedUpload) (h : (removeFirst l id).1 = some r) :
    l.find? (fun u => u.id == id) = some r := by
  induction l with
  | nil => simp [removeFirst] at h
  | cons u t ih =>
    cases hc : u.id == id with
    | true =>
      simp only [removeFirst, hc, if_pos] at h
      rw [List.find?_cons_of_pos (p := fun u => u.id == id) t hc]
      simpa using h
    | false =>
      simp only [removeFirst, hc, Bool.false_eq_true, if_neg,
        not_false_iff] at h
      rw [List.find?_cons_of_neg (p := fun u => u.id == id) t (by simp [hc])]
      exact ih h

/-- C6: for a record `r` present in the failed-uploads list under `id`,
`discard` deletes both referenced files and the record, `ignore` removes
only the record and touches no file, and a successful `retry` removes the
record and relocates the files through `handle_upload_action` — the same
file-relocation routine a normal successful upload uses; all three persist
the updated list. -/
theorem failed_upload_lifecycle_spec (fs : List String)
    (list : FailedUploadsList) (processed_dir id : String) (r : FailedUpload)
    (rest : FailedUploadsList) (h : list.remove id = (some r, rest)) :
    (∀ res, failed_upload_action fs list processed_dir "discard" id res =
        (removeFile (removeFile fs r.processed_path) r.full_path, rest, true)) ∧
    (∀ res, failed_upload_action fs list processed_dir "ignore" id res =
        (fs, rest, true)) ∧
    (∀ vid, failed_upload_action fs list processed_dir "retry" id
        (Except.ok (some vid)) =
        ((handle_upload_action fs processed_dir r.full_path r.processed_path
            (if r.game.isEmpty then r.title
             else r.title ++ " [" ++ r.game ++ "]") r.title vid).1,
         rest, true)) := by
  have hget : list.get id = some r :=
    removeFirst_find list.uploads id r
      (by have := congrArg Prod.fst h
          simpa [FailedUploadsList.remove] using this)
  refine ⟨?_, ?_, ?_⟩
  · intro res
    simp only [failed_upload_action, h]
    rw [guarded_removeFile, guarded_removeFile]
  · intro res
    simp only [failed_upload_action, h]
  · intro vid
    simp only [failed_upload_action, hget, h]

/-- Witness for `failed_upload_lifecycle_spec`: discarding the only record
of a one-record list removes its two files and empties the list. -/
theorem failed_upload_lifecycle_spec_witness :
    failed_upload_action ["/out/p.mp4", "/out/f.mp4"]
        (FailedUploadsList.mk
          [{ id := "100-clip", title := "clip", game := "game",
             processed_path := "/out/p.mp4", full_path := "/out/f.mp4",
             timestamp := 100 }])
        "/done" "discard" "100-clip" (Except.ok none) =
      (removeFile (removeFile ["/out/p.mp4", "/out/f.mp4"] "/out/p.mp4")
         "/out/f.mp4",
       FailedUploadsList.mk [], true) :=
  (failed_upload_lifecycle_spec ["/out/p.mp4", "/out/f.mp4"]
      (FailedUploadsList.mk
        [{ id := "100-clip", title := "clip", game := "game",
           processed_path := "/out/p.mp4", full_path := "/out/f.mp4",
           timestamp := 100 }])
      "/done" "100-clip"
      { id := "100-clip", title := "clip", game := "game",
        processed_path := "/out/p.mp4", full_path := "/out/f.mp4",
        timestamp := 100 }
      (FailedUploadsList.mk []) (by decide)).1 (Except.ok none)

end Clips
